import Mathlib

/-!
Verification development for the mol* density / boundary core
(src/mol-math/geometry/gaussian-density/gpu.ts and
src/mol-math/geometry/boundary.ts).

Integer-valued texture layout code is embedded over ℕ; the floating-point
geometry code is embedded over ℝ (exact-real idealization of the JS number
arithmetic).  Library pieces that the two core files import but that are not
part of the sources (BoundaryHelper, Sphere3D, Box3D, EPSILON/equalEps) are
modelled from the spec and marked as such in their doc comments.
-/

set_option maxHeartbeats 1000000

namespace MolStar

/-! ## Texture layout planner (gpu.ts, getTexture2dSize) -/

/-- Grid dimension (dx, dy, dz): integer Vec3 of sample-cell counts. -/
structure GridDim where
  dx : ℕ
  dy : ℕ
  dz : ℕ
deriving DecidableEq

/-- Packed 2D texture layout returned by the planner. -/
structure Tex2dLayout where
  texDimX : ℕ
  texDimY : ℕ
  texRows : ℕ
  texCols : ℕ
deriving DecidableEq

/-- The source computes `Math.pow(2, Math.ceil(Math.log(squareDim) / Math.log(2)))`
with `squareDim = Math.sqrt(area)`.  In exact arithmetic, for `area ≥ 1`,
the exponent is the least `k` with `2 ^ k ≥ √area`, i.e. the least `k` with
`4 ^ k ≥ area`, which is `Nat.clog 4 area`.  (For `area = 0` the JS code
produces `0`; `2 ^ Nat.clog 4 0 = 1` differs there, but every claim about the
planner restricts to positive dimensions.) -/
def powerOfTwoSize (area : ℕ) : ℕ := 2 ^ Nat.clog 4 area

/-- Embedding of `getTexture2dSize` (gpu.ts lines 406-424).
`texRows` translates `Math.ceil(gridDim[2] / texCols)` as
`(dz + texCols - 1) / texCols`; the two agree for `texCols ≥ 1`.
For `texCols = 0` the JS expression is `Infinity` while the ℕ model yields `0`
(the claims settled against this definition either exclude that case or only
inspect `texDimX = texCols * dx = 0` there). -/
def getTexture2dSize (gridDim : GridDim) : Tex2dLayout :=
  let area := gridDim.dx * gridDim.dy * gridDim.dz
  let pot := powerOfTwoSize area
  if pot < gridDim.dx * gridDim.dz then
    let texCols := pot / gridDim.dx
    let texRows := (gridDim.dz + texCols - 1) / texCols
    { texDimX := texCols * gridDim.dx
      texDimY := gridDim.dy * texRows
      texRows := texRows
      texCols := texCols }
  else
    { texDimX := gridDim.dx * gridDim.dz
      texDimY := gridDim.dy
      texRows := 1
      texCols := gridDim.dz }

/-! ## The two tiling cursors (gpu.ts lines 153-176 and 448-465)

The 2D accumulation render loop advances a cursor `(currCol, currY, currX)`
per Z-slice; the extraction loop in `fieldFromTexture2d` advances a cursor
`(tmpCol, tmpRow)` per Z-slice.  Each is embedded as a step function
producing the tile origin assigned to the current slice together with the
next cursor state. -/

/-- Cursor state of the accumulation render loop. -/
structure AccState where
  currCol : ℕ
  currY : ℕ
  currX : ℕ
deriving DecidableEq

/-- One iteration of the accumulation render loop (gpu.ts lines 160-174):
when `currCol ≥ texCols`, subtract `texCols` from `currCol`, advance `currY`
by `dy` and reset `currX`; the slice is rendered with viewport origin
`(currX, currY)`; afterwards `currCol` increments and `currX` advances by
`dx`. -/
def accStep (texCols dx dy : ℕ) (s : AccState) : (ℕ × ℕ) × AccState :=
  let s := if s.currCol ≥ texCols then
    { currCol := s.currCol - texCols, currY := s.currY + dy, currX := 0 }
  else s
  ((s.currX, s.currY),
   { currCol := s.currCol + 1, currY := s.currY, currX := s.currX + dx })

/-- Accumulation cursor state before slice `n` (initial state all zero). -/
def accIter (texCols dx dy : ℕ) : ℕ → AccState
  | 0 => ⟨0, 0, 0⟩
  | n + 1 => (accStep texCols dx dy (accIter texCols dx dy n)).2

/-- Tile origin the accumulation render loop assigns to slice `n`. -/
def accPos (texCols dx dy n : ℕ) : ℕ × ℕ :=
  (accStep texCols dx dy (accIter texCols dx dy n)).1

/-- Cursor state of the extraction loop. -/
structure ExtState where
  tmpCol : ℕ
  tmpRow : ℕ
deriving DecidableEq

/-- One iteration of the extraction loop over `iz` (gpu.ts lines 451-465):
when `tmpCol ≥ fboTexCols`, reset `tmpCol` to `0` and advance `tmpRow` by
`dy`; the pixel offset used for cell `(ix, iy, iz)` is
`4 * (tmpCol * dx + (iy + tmpRow) * width + ix)`, so the tile origin for the
slice is `(tmpCol * dx, tmpRow)`; afterwards `tmpCol` increments. -/
def extStep (fboTexCols dx dy : ℕ) (s : ExtState) : (ℕ × ℕ) × ExtState :=
  let s := if s.tmpCol ≥ fboTexCols then
    { tmpCol := 0, tmpRow := s.tmpRow + dy }
  else s
  ((s.tmpCol * dx, s.tmpRow), { tmpCol := s.tmpCol + 1, tmpRow := s.tmpRow })

/-- Extraction cursor state before slice `n` (initial state all zero). -/
def extIter (fboTexCols dx dy : ℕ) : ℕ → ExtState
  | 0 => ⟨0, 0⟩
  | n + 1 => (extStep fboTexCols dx dy (extIter fboTexCols dx dy n)).2

/-- Tile origin the extraction loop computes for slice `n`. -/
def extPos (fboTexCols dx dy n : ℕ) : ℕ × ℕ :=
  (extStep fboTexCols dx dy (extIter fboTexCols dx dy n)).1

/-- The extraction loop derives its column count as `floor(width / dx)` from
the packed texture width (gpu.ts line 431). -/
def fboTexCols (gridDim : GridDim) : ℕ :=
  (getTexture2dSize gridDim).texDimX / gridDim.dx

/-! ### Cursor equivalence lemmas -/

/-- Simulation relation between the accumulation cursor and the extraction
cursor.  For `texCols = 0` only the row components stay linked (both loops
then start a fresh row on every slice, and the accumulation loop pins
`currX` to `0`); for `texCols ≥ 1` the full states correspond. -/
def CursorRel (texCols dx : ℕ) (a : AccState) (e : ExtState) : Prop :=
  a.currY = e.tmpRow ∧
    (0 < texCols → a.currCol = e.tmpCol ∧ a.currX = e.tmpCol * dx ∧ a.currCol ≤ texCols)

/-! ## Pipeline trace model (gpu.ts, calcGaussianDensityTexture2d / 3d)

The two density pipeline drivers are straight-line code.  They are embedded
as functions producing the list of GPU command-stream events they issue, in
order.  Each pipeline sets up and runs the density pass, then the
min-distance pass, then the group-id pass; the `render` helpers issue one
draw per Z-slice followed by a `gl.finish()` barrier. -/

/-- The three render configurations of the density accumulation engine. -/
inductive Pass where
  | density
  | minDistance
  | groupId
deriving DecidableEq

/-- Events issued to the GPU command stream by the pipeline drivers. -/
inductive GpuEvent where
  /-- One of the `setup*Rendering` calls switching the pass configuration. -/
  | setup (p : Pass)
  /-- A `gl.clear` of the current render target. -/
  | clear
  /-- One `renderable.render()` draw of slice `i` under pass `p`. -/
  | render (p : Pass) (i : ℕ)
  /-- The `gl.finish()` barrier closing the multi-slice batch of pass `p`. -/
  | finish (p : Pass)
deriving DecidableEq

/-- Embedding of the 2D `render` helper (gpu.ts lines 153-176): one optional
clear, one draw per slice `0 ≤ i < dz`, then the finish barrier. -/
def renderBatch2d (p : Pass) (clear : Bool) (dz : ℕ) : List GpuEvent :=
  (if clear then [GpuEvent.clear] else []) ++
    (List.range dz).map (GpuEvent.render p) ++ [GpuEvent.finish p]

/-- Embedding of the 3D `render` helper (gpu.ts lines 230-239): per slice an
optional clear then the draw (each slice attached as its own framebuffer
layer), then the finish barrier. -/
def renderBatch3d (p : Pass) (clear : Bool) (dz : ℕ) : List GpuEvent :=
  (List.range dz).flatMap
      (fun i => (if clear then [GpuEvent.clear] else []) ++ [GpuEvent.render p i]) ++
    [GpuEvent.finish p]

/-- Error thrown by `setupMinDistanceRendering` (gpu.ts line 382) when the
MIN/MAX blend-equation capability is absent. -/
def blendMinMaxError : String :=
  "GPU gaussian surface calculation requires EXT_blend_minmax"

/-- Embedding of the pass sequence of `calcGaussianDensityTexture2d`
(gpu.ts lines 178-185): density setup and batch, min-distance setup and
batch, group-id setup and batch.  `setupMinDistanceRendering` throws when
`webgl.extensions.blendMinMax` is absent; the result is the list of events
issued up to that point together with the outcome (the thrown error
propagates out of the whole computation, so no density texture data is
returned). -/
def calcPipeline2d (blendMinMax : Bool) (dz : ℕ) : List GpuEvent × Except String Unit :=
  let densityPart := [GpuEvent.setup .density] ++ renderBatch2d .density true dz
  if blendMinMax then
    (densityPart ++ [GpuEvent.setup .minDistance] ++ renderBatch2d .minDistance true dz ++
      [GpuEvent.setup .groupId] ++ renderBatch2d .groupId false dz, Except.ok ())
  else
    (densityPart ++ [GpuEvent.setup .minDistance], Except.error blendMinMaxError)

/-- Embedding of the pass sequence of `calcGaussianDensityTexture3d`
(gpu.ts lines 241-248), identical pass order with the 3D render helper. -/
def calcPipeline3d (blendMinMax : Bool) (dz : ℕ) : List GpuEvent × Except String Unit :=
  let densityPart := [GpuEvent.setup .density] ++ renderBatch3d .density true dz
  if blendMinMax then
    (densityPart ++ [GpuEvent.setup .minDistance] ++ renderBatch3d .minDistance true dz ++
      [GpuEvent.setup .groupId] ++ renderBatch3d .groupId false dz, Except.ok ())
  else
    (densityPart ++ [GpuEvent.setup .minDistance], Except.error blendMinMaxError)

/-- A min-distance pass event that must precede the group-id pass: a draw of
some slice under the min-distance configuration, or its finish barrier. -/
def isMinDistanceWork (e : GpuEvent) : Prop :=
  (∃ i, e = GpuEvent.render .minDistance i) ∨ e = GpuEvent.finish .minDistance

/-- A draw issued by the group-id pass. -/
def isGroupIdRender (e : GpuEvent) : Prop :=
  ∃ i, e = GpuEvent.render .groupId i

/-! ### Claim C8 -/

/-- Boolean check for a min-distance draw event. -/
def isMinDistanceRenderB : GpuEvent → Bool
  | .render .minDistance _ => true
  | _ => false

/-- Boolean check for a group-id draw event. -/
def isGroupIdRenderB : GpuEvent → Bool
  | .render .groupId _ => true
  | _ => false

noncomputable section
open Classical

/-! ## Real-valued geometry model (boundary.ts and gpu.ts data preparation)
The JS number arithmetic of the boundary fitter is embedded over exact
reals.  Types imported by boundary.ts from modules that are not part of the
sources (Vec3, Box3D, Sphere3D, EPSILON, equalEps, BoundaryHelper) are
modelled from the spec; their doc comments say so explicitly. -/

/-- Three-component real vector (mol-math/linear-algebra Vec3). -/
structure Vec3 where
  x : ℝ
  y : ℝ
  z : ℝ

/-- Squared Euclidean distance (Vec3.squaredDistance). -/
def v3squaredDistance (a b : Vec3) : ℝ :=
  (a.x - b.x) ^ 2 + (a.y - b.y) ^ 2 + (a.z - b.z) ^ 2

/-- Euclidean distance (Vec3.distance). -/
def v3distance (a b : Vec3) : ℝ := Real.sqrt (v3squaredDistance a b)

/-- Modelled from the spec: Box3D of mol-math/geometry (not under src/), an
axis-aligned box with mutable min/max corners. -/
structure Box3D where
  min : Vec3
  max : Vec3

/-- Modelled from the spec: Sphere3D of mol-math/geometry (not under src/):
center, radius and the optional list of tracked extrema
(`hasExtrema sphere` is extrema presence). -/
structure Sphere3D where
  center : Vec3
  radius : ℝ
  extrema : Option (List Vec3)

/-- Boundary record (boundary.ts line 15). -/
structure Boundary where
  box : Box3D
  sphere : Sphere3D

/-- Modelled from the spec: PositionData of mol-math/geometry/common.ts
(declaration not under src/): parallel per-index coordinate arrays, optional
per-index radius and id arrays, and the ordered list of active indices. -/
structure PositionData where
  x : ℕ → ℝ
  y : ℕ → ℝ
  z : ℕ → ℝ
  radius : Option (ℕ → ℝ)
  id : Option (ℕ → ℝ)
  indices : List ℕ

/-- Modelled from the spec: the tight epsilon EPSILON of
mol-math/linear-algebra/3d/common.ts (not under src/); mol* sets it
to 1e-6. -/
def EPSILON : ℝ := 1 / 1000000

/-- Modelled from the spec: equalEps of mol-math/linear-algebra/3d/common.ts
(not under src/): absolute difference bounded by eps. -/
def equalEps (a b eps : ℝ) : Prop := |a - b| ≤ eps

/-- Modelled from the spec: Sphere3D.expand (not under src/): the sphere
expanded by delta keeps its center and grows its radius by delta (the spec:
"expand the sphere by newRadius - oldRadius"; it does not specify an
adjustment of the tracked extrema, which are carried over). -/
def Sphere3D.expand (sphere : Sphere3D) (delta : ℝ) : Sphere3D :=
  { center := sphere.center, radius := sphere.radius + delta, extrema := sphere.extrema }

/-- Modelled from the spec: Box3D.fromSphere3D (not under src/): the
axis-aligned box of the sphere (the spec: "recompute the box from the
expanded sphere"). -/
def Box3D.fromSphere3D (sphere : Sphere3D) : Box3D :=
  { min := ⟨sphere.center.x - sphere.radius, sphere.center.y - sphere.radius,
      sphere.center.z - sphere.radius⟩
    max := ⟨sphere.center.x + sphere.radius, sphere.center.y + sphere.radius,
      sphere.center.z + sphere.radius⟩ }

/-- Coordinates of active index i (`v3set(p, x[i], y[i], z[i])`). -/
def positionAt (data : PositionData) (i : ℕ) : Vec3 := ⟨data.x i, data.y i, data.z i⟩

/-- Per-point radius `(radius && radius[i]) || 0` (boundary.ts lines 40 and 46). -/
def radiusAt (data : PositionData) (i : ℕ) : ℝ :=
  match data.radius with
  | some r => r i
  | none => 0

/-- The active points in iteration order (`i = OrderedSet.getAt(indices, t)`
for `t = 0 .. n-1`; the index list plays the role of the OrderedSet). -/
def activePoints (data : PositionData) : List Vec3 :=
  data.indices.map (positionAt data)

/-- The active point+radius pairs in iteration order (boundary.ts
lines 37-47). -/
def activePointRadii (data : PositionData) : List (Vec3 × ℝ) :=
  data.indices.map (fun i => (positionAt data i, radiusAt data i))

/-! ### tryAdjustBoundary (boundary.ts lines 63-109) -/

/-- The scan loop of tryAdjustBoundary (boundary.ts lines 73-84): walk the
active points in order; return nothing as soon as a squared distance to the
sphere center exceeds upperSq; otherwise track the running maximum squared
distance and the point attaining it. -/
def adjustScan (center : Vec3) (upperSq : ℝ) :
    List Vec3 → ℝ → Vec3 → Option (ℝ × Vec3)
  | [], maxDistSq, extremPoint => some (maxDistSq, extremPoint)
  | p :: rest, maxDistSq, extremPoint =>
    let distSq := v3squaredDistance p center
    if upperSq < distSq then none
    else if maxDistSq < distSq then adjustScan center upperSq rest distSq p
    else adjustScan center upperSq rest maxDistSq extremPoint

/-- The maximum squared distance tracked by a completing scan (same
update rule as the loop, without the abort case). -/
def scanMaxDistSq (center : Vec3) : List Vec3 → ℝ → ℝ
  | [], maxDistSq => maxDistSq
  | p :: rest, maxDistSq =>
    if maxDistSq < v3squaredDistance p center then
      scanMaxDistSq center rest (v3squaredDistance p center)
    else scanMaxDistSq center rest maxDistSq

/-- The extremal point tracked by a completing scan. -/
def scanExtremPoint (center : Vec3) : List Vec3 → ℝ → Vec3 → Vec3
  | [], _, extremPoint => extremPoint
  | p :: rest, maxDistSq, extremPoint =>
    if maxDistSq < v3squaredDistance p center then
      scanExtremPoint center rest (v3squaredDistance p center) p
    else scanExtremPoint center rest maxDistSq extremPoint

/-- Embedding of tryAdjustBoundary (boundary.ts lines 64-109).  The scan
starts from `maxDistSq = 0` and the zero vector (the module-level
`extremPoint = Vec3()` scratch value). -/
def tryAdjustBoundary (data : PositionData) (boundary : Boundary) : Option Boundary :=
  let center := boundary.sphere.center
  let radius := boundary.sphere.radius
  let threshold := radius / 100 * 5
  let upper := radius + threshold
  let upperSq := upper * upper
  match adjustScan center upperSq (activePoints data) 0 ⟨0, 0, 0⟩ with
  | none => none
  | some (maxDistSq, extremPoint) =>
    let adjustedRadius := Real.sqrt maxDistSq
    if equalEps adjustedRadius radius EPSILON then some boundary
    else if equalEps adjustedRadius radius threshold then
      let keep : Prop :=
        match boundary.sphere.extrema with
        | some extrema => ∃ e ∈ extrema, v3distance e extremPoint < threshold * 2
        | none => True
      if keep then
        let deltaRadius := adjustedRadius - radius
        let sphere := Sphere3D.expand boundary.sphere deltaRadius
        let box := Box3D.fromSphere3D sphere
        some { box := box, sphere := sphere }
      else none
    else none

/-- The adjusted radius a completing scan yields:
`Math.sqrt(maxDistSq)` (boundary.ts line 86). -/
def adjustedRadiusOf (data : PositionData) (boundary : Boundary) : ℝ :=
  Real.sqrt (scanMaxDistSq boundary.sphere.center (activePoints data) 0)

/-- The extremal point a completing scan yields (boundary.ts line 82). -/
def extremPointOf (data : PositionData) (boundary : Boundary) : Vec3 :=
  scanExtremPoint boundary.sphere.center (activePoints data) 0 ⟨0, 0, 0⟩

/-! ### getBoundary (boundary.ts lines 31-61) over the spec-modelled helper -/

/-- Modelled from the spec: the include step of BoundaryHelper
(boundary-helper.ts, not under src/) grows the candidate axis-aligned box to
cover the whole sphere of each fed point+radius. -/
def includePositionRadius (b : Box3D) (p : Vec3) (r : ℝ) : Box3D :=
  { min := ⟨min b.min.x (p.x - r), min b.min.y (p.y - r), min b.min.z (p.z - r)⟩
    max := ⟨max b.max.x (p.x + r), max b.max.y (p.y + r), max b.max.z (p.z + r)⟩ }

/-- Modelled from the spec: the candidate box Phase 1 of the boundary fitter
accumulates from every point+radius; the empty point set yields the
degenerate zero box. -/
def candidateBox : List (Vec3 × ℝ) → Box3D
  | [] => { min := ⟨0, 0, 0⟩, max := ⟨0, 0, 0⟩ }
  | (p, r) :: rest =>
    rest.foldl (fun b q => includePositionRadius b q.1 q.2)
      { min := ⟨p.x - r, p.y - r, p.z - r⟩, max := ⟨p.x + r, p.y + r, p.z + r⟩ }

/-- Modelled from the spec: the Phase 1 candidate sphere center.  The spec
fixes only that Phase 1 produces a candidate sphere from a fixed direction
set; the model centers it in the candidate box (Phase 2 refits the radius,
and the soundness claim does not depend on the center choice). -/
def candidateCenter (b : Box3D) : Vec3 :=
  ⟨(b.min.x + b.max.x) / 2, (b.min.y + b.max.y) / 2, (b.min.z + b.max.z) / 2⟩

/-- Modelled from the spec: Phase 2 of the boundary fitter
(radiusPositionRadius, boundary.ts lines 43-47 driving the helper): the
fitted radius is the maximum tracked distance over all points, the distance
of a point+radius being its center distance plus its radius, so that each
whole point sphere is enclosed. -/
def fittedRadius (center : Vec3) (pts : List (Vec3 × ℝ)) : ℝ :=
  pts.foldl (fun m q => max m (v3distance q.1 center + q.2)) 0

/-- Embedding of getBoundary (boundary.ts lines 31-61) over the
spec-modelled BoundaryHelper.  The extrema-replacement step of lines 51-58
fires only when the helper sphere carries extrema; the spec leaves extrema
tracking optional ("tracked when the accumulator supports it") and the
modelled helper tracks none, so the returned sphere carries none and that
step is the identity. -/
def getBoundary (data : PositionData) : Boundary :=
  let pts := activePointRadii data
  let box := candidateBox pts
  let center := candidateCenter box
  { box := box
    sphere := { center := center, radius := fittedRadius center pts, extrema := none } }

/-- The whole sphere of a point (its center offset by its radius in every
axis direction) lies inside the box. -/
def pointInBox (b : Box3D) (p : Vec3) (r : ℝ) : Prop :=
  b.min.x ≤ p.x - r ∧ b.min.y ≤ p.y - r ∧ b.min.z ≤ p.z - r ∧
    p.x + r ≤ b.max.x ∧ p.y + r ≤ b.max.y ∧ p.z + r ≤ b.max.z

/-- The whole sphere of a point lies inside the bounding sphere. -/
def pointInSphere (s : Sphere3D) (p : Vec3) (r : ℝ) : Prop :=
  v3distance p s.center + r ≤ s.radius

/-! ### prepareGaussianDensityData (gpu.ts lines 255-289) -/

/-- Per-point data prepared for GPU upload. -/
structure PreparedDensityData where
  drawCount : ℕ
  positions : List ℝ
  radii : List ℝ
  groups : List ℝ
  maxRadius : ℝ

/-- Embedding of the upload-preparation loop of prepareGaussianDensityData
(gpu.ts lines 259-278); the padded-box / grid-dimension derivation of lines
280-287 is consumed by no claim and is omitted.  For iteration position `i`
with active index `j = OrderedSet.getAt(indices, i)`, the coordinates and
the radius are read at `j` while line 277 reads the group id at the
iteration position `i`: `groups[i] = id ? id[i] : i`. -/
def prepareGaussianDensityData (position : PositionData)
    (radius : ℕ → ℝ) (radiusOffset : ℝ) : PreparedDensityData :=
  let n := position.indices.length
  { drawCount := n
    positions := position.indices.flatMap
      (fun j => [position.x j, position.y j, position.z j])
    radii := position.indices.map (fun j => radius j + radiusOffset)
    groups := (List.range n).map (fun i =>
      match position.id with
      | some id => id i
      | none => (i : ℝ))
    maxRadius := position.indices.foldl
      (fun m j => if m < radius j + radiusOffset then radius j + radiusOffset else m) 0 }

/-- Input for the C4 witness: one point at (2,0,0). -/
def c4Data : PositionData :=
  { x := fun _ => 2, y := fun _ => 0, z := fun _ => 0,
    radius := none, id := none, indices := [0] }

/-- Unit boundary: sphere of radius 1 at the origin, no tracked extrema. -/
def unitBoundary : Boundary :=
  { box := { min := ⟨-1, -1, -1⟩, max := ⟨1, 1, 1⟩ }
    sphere := { center := ⟨0, 0, 0⟩, radius := 1, extrema := none } }

/-- Input for the C6 witness: one point at (1,0,0), exactly on the unit
sphere surface. -/
def c6Data : PositionData :=
  { x := fun _ => 1, y := fun _ => 0, z := fun _ => 0,
    radius := none, id := none, indices := [0] }

/-- Input for the C5 witness: one point at (1.02, 0, 0), 2% beyond the unit
sphere but within the 5% band. -/
def c5Data : PositionData :=
  { x := fun _ => 51 / 50, y := fun _ => 0, z := fun _ => 0,
    radius := none, id := none, indices := [0] }

/-- Boundary for the C5 witness: unit sphere at the origin with the tracked
extremum (1,0,0). -/
def c5Boundary : Boundary :=
  { box := { min := ⟨-1, -1, -1⟩, max := ⟨1, 1, 1⟩ }
    sphere := { center := ⟨0, 0, 0⟩, radius := 1, extrema := some [⟨1, 0, 0⟩] } }

/-- Second input for the C10 witness: same geometry as c6Data but with a
radius array and an id array present. -/
def c10Data : PositionData :=
  { x := fun _ => 1, y := fun _ => 0, z := fun _ => 0,
    radius := some fun _ => 5, id := some fun _ => 3, indices := [0] }

/-- Input for the C1 witness: one point (1,2,3) with radius 1. -/
def c1Data : PositionData :=
  { x := fun _ => 1, y := fun _ => 2, z := fun _ => 3,
    radius := some fun _ => 1, id := none, indices := [0] }

/-! ### Claim C9 -/

/-- Per-index group identifiers of the C9 failing input: id[2] = 7 and 9
elsewhere. -/
def c9id : ℕ → ℝ := fun j => if j = 2 then 7 else 9

/-- The C9 failing input: a single active point whose active index is 2. -/
def c9Data : PositionData :=
  { x := fun _ => 0, y := fun _ => 0, z := fun _ => 0,
    radius := none, id := some c9id, indices := [2] }

end

/-! ### Layout planner lemmas -/

lemma ceil_div_mul_ge (c dz : ℕ) (hc : 1 ≤ c) : dz ≤ c * ((dz + c - 1) / c) := by
  have h : dz + c - 1 < (dz + c - 1) / c * c + c := Nat.lt_div_mul_add (by omega)
  have h3 : c * ((dz + c - 1) / c) = (dz + c - 1) / c * c := Nat.mul_comm _ _
  rw [h3]
  generalize hm : (dz + c - 1) / c * c = m at h
  omega

lemma ceil_div_pos (c dz : ℕ) (hc : 1 ≤ c) (hdz : 1 ≤ dz) : 1 ≤ (dz + c - 1) / c :=
  (Nat.one_le_div_iff (by omega)).2 (by omega)

/-- Extraction derives the same column count as the planner output:
`floor(texDimX / dx) = texCols` (for positive `dx`). -/
lemma fboTexCols_eq (g : GridDim) (hdx : 1 ≤ g.dx) :
    fboTexCols g = (getTexture2dSize g).texCols := by
  unfold fboTexCols getTexture2dSize
  by_cases hb : powerOfTwoSize (g.dx * g.dy * g.dz) < g.dx * g.dz
  · simp only [if_pos hb]
    exact Nat.mul_div_cancel _ (by omega)
  · simp only [if_neg hb]
    rw [Nat.mul_comm]
    exact Nat.mul_div_cancel _ (by omega)

lemma cursorRel_step (texCols dx dy : ℕ) (a : AccState) (e : ExtState)
    (h : CursorRel texCols dx a e) :
    CursorRel texCols dx (accStep texCols dx dy a).2 (extStep texCols dx dy e).2 := by
  obtain ⟨ac, ay, ax⟩ := a
  obtain ⟨ec, er⟩ := e
  obtain ⟨hrow, hcols⟩ := h
  simp only [CursorRel] at hrow hcols ⊢
  simp only [accStep, extStep]
  rcases Nat.eq_zero_or_pos texCols with h0 | hpos
  · subst h0
    simp only [ge_iff_le, Nat.zero_le, if_true]
    exact ⟨by simp [hrow], by omega⟩
  · obtain ⟨hcol, hx, hle⟩ := hcols hpos
    by_cases hge : ac ≥ texCols
    · have hcolge : ec ≥ texCols := by omega
      simp only [if_pos hge, if_pos hcolge]
      exact ⟨by simp [hrow], fun _ => ⟨by omega, by simp, by omega⟩⟩
    · have hcollt : ¬ ec ≥ texCols := by omega
      simp only [if_neg hge, if_neg hcollt]
      refine ⟨hrow, fun _ => ⟨by simpa using hcol, ?_, by omega⟩⟩
      dsimp only
      rw [hx]
      ring

lemma cursorRel_iter (texCols dx dy : ℕ) :
    ∀ n, CursorRel texCols dx (accIter texCols dx dy n) (extIter texCols dx dy n) := by
  intro n
  induction n with
  | zero => exact ⟨rfl, fun _ => ⟨rfl, by simp [accIter, extIter], Nat.zero_le _⟩⟩
  | succ n ih => exact cursorRel_step texCols dx dy _ _ ih

lemma cursorRel_pos (texCols dx dy : ℕ) (a : AccState) (e : ExtState)
    (h : CursorRel texCols dx a e) :
    (accStep texCols dx dy a).1 = (extStep texCols dx dy e).1 := by
  obtain ⟨ac, ay, ax⟩ := a
  obtain ⟨ec, er⟩ := e
  obtain ⟨hrow, hcols⟩ := h
  simp only [CursorRel] at hrow hcols
  simp only [accStep, extStep]
  rcases Nat.eq_zero_or_pos texCols with h0 | hpos
  · subst h0
    simp only [ge_iff_le, Nat.zero_le, if_true]
    simp [hrow]
  · obtain ⟨hcol, hx, hle⟩ := hcols hpos
    by_cases hge : ac ≥ texCols
    · have hcolge : ec ≥ texCols := by omega
      simp only [if_pos hge, if_pos hcolge]
      simp [hrow]
    · have hcollt : ¬ ec ≥ texCols := by omega
      simp only [if_neg hge, if_neg hcollt]
      simp [hrow, hx, hcol]

/-- The tile origin assigned to each slice by the accumulation render loop
equals the tile origin computed by the extraction loop, for any shared
column count. -/
lemma accPos_eq_extPos (texCols dx dy n : ℕ) :
    accPos texCols dx dy n = extPos texCols dx dy n :=
  cursorRel_pos texCols dx dy _ _ (cursorRel_iter texCols dx dy n)

/-! ### Claim C2 -/

/-- Claim C2 (corrected): for dx, dy, dz ≥ 1, the planner outputs satisfy
`texCols * texRows ≥ dz`, `texDimX ≥ dx` and `texDimY ≥ dy` — provided the
planner's `texCols` output is at least 1.  (The unamended claim fails when
the tiling branch computes `texCols = floor(powerOfTwoSize / dx) = 0`, see
the counterexample below.) -/
theorem C2_texture_layout_invariants (g : GridDim)
    (hdx : 1 ≤ g.dx) (hdy : 1 ≤ g.dy) (hdz : 1 ≤ g.dz)
    (hcols : 1 ≤ (getTexture2dSize g).texCols) :
    g.dz ≤ (getTexture2dSize g).texCols * (getTexture2dSize g).texRows ∧
      g.dx ≤ (getTexture2dSize g).texDimX ∧
      g.dy ≤ (getTexture2dSize g).texDimY := by
  unfold getTexture2dSize at hcols ⊢
  by_cases hb : powerOfTwoSize (g.dx * g.dy * g.dz) < g.dx * g.dz
  · simp only [if_pos hb] at hcols ⊢
    refine ⟨ceil_div_mul_ge _ _ hcols, ?_, ?_⟩
    · calc g.dx = 1 * g.dx := (Nat.one_mul _).symm
        _ ≤ _ := Nat.mul_le_mul_right _ hcols
    · calc g.dy = g.dy * 1 := (Nat.mul_one _).symm
        _ ≤ _ := Nat.mul_le_mul_left _ (ceil_div_pos _ _ hcols hdz)
  · simp only [if_neg hb] at hcols ⊢
    refine ⟨by omega, ?_, le_refl _⟩
    calc g.dx = g.dx * 1 := (Nat.mul_one _).symm
      _ ≤ _ := Nat.mul_le_mul_left _ hdz

/-- Witness for C2 at grid dimension (2,3,5): area 30, powerOfTwoSize 8,
tiling branch with texCols 4, texRows 2, texDimX 8, texDimY 6. -/
theorem C2_texture_layout_invariants_witness :
    1 ≤ (getTexture2dSize ⟨2, 3, 5⟩).texCols ∧
      (5 ≤ (getTexture2dSize ⟨2, 3, 5⟩).texCols * (getTexture2dSize ⟨2, 3, 5⟩).texRows ∧
        2 ≤ (getTexture2dSize ⟨2, 3, 5⟩).texDimX ∧
        3 ≤ (getTexture2dSize ⟨2, 3, 5⟩).texDimY) := by
  have hcols : 1 ≤ (getTexture2dSize ⟨2, 3, 5⟩).texCols := by
    simp [getTexture2dSize, powerOfTwoSize, Nat.clog]
  exact ⟨hcols,
    C2_texture_layout_invariants ⟨2, 3, 5⟩ (by norm_num) (by norm_num) (by norm_num) hcols⟩

/-- Counterexample to C2 as stated: at grid dimension (3,1,1) the
powerOfTwoSize is 2 < 3 = dx·dz, the tiling branch computes
`texCols = floor(2/3) = 0`, and `texDimX = 0 < 3 = dx` (in the JS source
`texRows` additionally evaluates to `Infinity`). -/
theorem C2_texture_layout_counterexample :
    ¬ (1 ≤ (getTexture2dSize ⟨3, 1, 1⟩).texCols * (getTexture2dSize ⟨3, 1, 1⟩).texRows ∧
        3 ≤ (getTexture2dSize ⟨3, 1, 1⟩).texDimX ∧
        1 ≤ (getTexture2dSize ⟨3, 1, 1⟩).texDimY) := by
  simp [getTexture2dSize, powerOfTwoSize, Nat.clog]

/-! ### Claim C3 -/

/-- Claim C3 (confirmed): for every grid dimension with dx, dy, dz ≥ 1 and
the planner's layout for it, the tile origin the 2D accumulation render loop
assigns to slice i equals the tile origin the extraction loop in
fieldFromTexture2d computes for slice i (whose column count is re-derived as
`floor(texDimX / dx)`), for every 0 ≤ i < dz. -/
theorem C3_accumulation_extraction_cursor_equiv (g : GridDim)
    (hdx : 1 ≤ g.dx) (hdy : 1 ≤ g.dy) (hdz : 1 ≤ g.dz)
    (i : ℕ) (hi : i < g.dz) :
    accPos (getTexture2dSize g).texCols g.dx g.dy i = extPos (fboTexCols g) g.dx g.dy i := by
  rw [fboTexCols_eq g hdx]
  exact accPos_eq_extPos _ _ _ _

/-- Witness for C3 at grid dimension (2,3,5), slice 4 (last slice of a
4-column layout, second tile row). -/
theorem C3_accumulation_extraction_cursor_equiv_witness :
    accPos (getTexture2dSize ⟨2, 3, 5⟩).texCols 2 3 4 = extPos (fboTexCols ⟨2, 3, 5⟩) 2 3 4 :=
  C3_accumulation_extraction_cursor_equiv ⟨2, 3, 5⟩ (by norm_num) (by norm_num) (by norm_num)
    4 (by norm_num)

/-- In a trace split as `X ++ Y` where no `P`-event lies in `Y` and no
`Q`-event lies in `X`, every `P`-event strictly precedes every `Q`-event. -/
lemma before_of_split {X Y : List GpuEvent} {P Q : GpuEvent → Prop}
    (hPX : ∀ e ∈ Y, ¬ P e) (hQY : ∀ e ∈ X, ¬ Q e)
    (i j : ℕ) (hi : i < (X ++ Y).length) (hj : j < (X ++ Y).length)
    (hPi : P ((X ++ Y).get ⟨i, hi⟩)) (hQj : Q ((X ++ Y).get ⟨j, hj⟩)) : i < j := by
  have hiX : i < X.length := by
    by_contra hge
    have hge' : X.length ≤ i := by omega
    have : (X ++ Y).get ⟨i, hi⟩ = Y.get ⟨i - X.length, by
        have := hi; simp only [List.length_append] at this; omega⟩ := by
      simp [List.getElem_append_right hge']
    exact hPX _ (by rw [this]; exact List.get_mem _ _ _) hPi
  have hjX : X.length ≤ j := by
    by_contra hlt
    have hlt' : j < X.length := by omega
    have : (X ++ Y).get ⟨j, hj⟩ = X.get ⟨j, hlt'⟩ := by
      simp [List.getElem_append_left hlt']
    exact hQY _ (by rw [this]; exact List.get_mem _ _ _) hQj
  omega

/-- Case analysis of the events in a 2D render batch. -/
lemma renderBatch2d_events {p : Pass} {c : Bool} {dz : ℕ} {e : GpuEvent}
    (he : e ∈ renderBatch2d p c dz) :
    e = GpuEvent.clear ∨ (∃ i, e = GpuEvent.render p i) ∨ e = GpuEvent.finish p := by
  simp only [renderBatch2d, List.mem_append, List.mem_map, List.mem_range] at he
  rcases he with (he | he) | he
  · rcases c with _ | _ <;> simp_all
  · obtain ⟨i, _, hi⟩ := he
    exact Or.inr (Or.inl ⟨i, hi.symm⟩)
  · simp_all

/-- Case analysis of the events in a 3D render batch. -/
lemma renderBatch3d_events {p : Pass} {c : Bool} {dz : ℕ} {e : GpuEvent}
    (he : e ∈ renderBatch3d p c dz) :
    e = GpuEvent.clear ∨ (∃ i, e = GpuEvent.render p i) ∨ e = GpuEvent.finish p := by
  simp only [renderBatch3d, List.mem_append, List.mem_flatMap, List.mem_range] at he
  rcases he with ⟨i, _, hi⟩ | he
  · simp only [List.mem_append, List.mem_singleton] at hi
    rcases hi with hi | hi
    · rcases c with _ | _ <;> simp_all
    · exact Or.inr (Or.inl ⟨i, hi⟩)
  · simp_all

lemma not_minDistanceWork_of_groupId2d {dz : ℕ} :
    ∀ e ∈ renderBatch2d .groupId false dz, ¬ isMinDistanceWork e := by
  intro e he
  rcases renderBatch2d_events he with h | ⟨i, h⟩ | h <;> subst h <;>
    simp [isMinDistanceWork]

lemma not_minDistanceWork_of_groupId3d {dz : ℕ} :
    ∀ e ∈ renderBatch3d .groupId false dz, ¬ isMinDistanceWork e := by
  intro e he
  rcases renderBatch3d_events he with h | ⟨i, h⟩ | h <;> subst h <;>
    simp [isMinDistanceWork]

lemma not_groupIdRender_of_prefix2d {dz : ℕ} :
    ∀ e ∈ [GpuEvent.setup .density] ++ renderBatch2d .density true dz ++
        [GpuEvent.setup .minDistance] ++ renderBatch2d .minDistance true dz ++
        [GpuEvent.setup .groupId],
      ¬ isGroupIdRender e := by
  intro e he
  simp only [List.mem_append, List.mem_singleton] at he
  rcases he with (((he | he) | he) | he) | he
  · subst he; simp [isGroupIdRender]
  · rcases renderBatch2d_events he with h | ⟨i, h⟩ | h <;> subst h <;> simp [isGroupIdRender]
  · subst he; simp [isGroupIdRender]
  · rcases renderBatch2d_events he with h | ⟨i, h⟩ | h <;> subst h <;> simp [isGroupIdRender]
  · subst he; simp [isGroupIdRender]

lemma not_groupIdRender_of_prefix3d {dz : ℕ} :
    ∀ e ∈ [GpuEvent.setup .density] ++ renderBatch3d .density true dz ++
        [GpuEvent.setup .minDistance] ++ renderBatch3d .minDistance true dz ++
        [GpuEvent.setup .groupId],
      ¬ isGroupIdRender e := by
  intro e he
  simp only [List.mem_append, List.mem_singleton] at he
  rcases he with (((he | he) | he) | he) | he
  · subst he; simp [isGroupIdRender]
  · rcases renderBatch3d_events he with h | ⟨i, h⟩ | h <;> subst h <;> simp [isGroupIdRender]
  · subst he; simp [isGroupIdRender]
  · rcases renderBatch3d_events he with h | ⟨i, h⟩ | h <;> subst h <;> simp [isGroupIdRender]
  · subst he; simp [isGroupIdRender]

/-! ### Claim C7 -/

/-- Claim C7 (confirmed): in every invocation of the density pipeline (2D
and 3D variants), all dz min-distance slice draws and the min-distance
finish barrier occur strictly before every group-id draw; moreover each
slice 0 ≤ s < dz does get a min-distance draw. -/
theorem C7_minDistance_completes_before_groupId (dz : ℕ) :
    ((∀ s, s < dz → GpuEvent.render .minDistance s ∈ (calcPipeline2d true dz).1) ∧
      (∀ i j (hi : i < (calcPipeline2d true dz).1.length)
          (hj : j < (calcPipeline2d true dz).1.length),
        isMinDistanceWork ((calcPipeline2d true dz).1.get ⟨i, hi⟩) →
        isGroupIdRender ((calcPipeline2d true dz).1.get ⟨j, hj⟩) → i < j)) ∧
    ((∀ s, s < dz → GpuEvent.render .minDistance s ∈ (calcPipeline3d true dz).1) ∧
      (∀ i j (hi : i < (calcPipeline3d true dz).1.length)
          (hj : j < (calcPipeline3d true dz).1.length),
        isMinDistanceWork ((calcPipeline3d true dz).1.get ⟨i, hi⟩) →
        isGroupIdRender ((calcPipeline3d true dz).1.get ⟨j, hj⟩) → i < j)) := by
  have htr2 : (calcPipeline2d true dz).1 =
      ([GpuEvent.setup .density] ++ renderBatch2d .density true dz ++
        [GpuEvent.setup .minDistance] ++ renderBatch2d .minDistance true dz ++
        [GpuEvent.setup .groupId]) ++ renderBatch2d .groupId false dz := by
    simp [calcPipeline2d]
  have htr3 : (calcPipeline3d true dz).1 =
      ([GpuEvent.setup .density] ++ renderBatch3d .density true dz ++
        [GpuEvent.setup .minDistance] ++ renderBatch3d .minDistance true dz ++
        [GpuEvent.setup .groupId]) ++ renderBatch3d .groupId false dz := by
    simp [calcPipeline3d]
  refine ⟨⟨?_, ?_⟩, ⟨?_, ?_⟩⟩
  · intro s hs
    rw [htr2]
    refine List.mem_append.2 (Or.inl (List.mem_append.2 (Or.inl (List.mem_append.2
      (Or.inr ?_)))))
    simp [renderBatch2d, hs]
  · intro i j hi hj hP hQ
    exact before_of_split not_minDistanceWork_of_groupId2d not_groupIdRender_of_prefix2d
      i j hi hj hP hQ
  · intro s hs
    rw [htr3]
    refine List.mem_append.2 (Or.inl (List.mem_append.2 (Or.inl (List.mem_append.2
      (Or.inr ?_)))))
    simp only [renderBatch3d, List.mem_append, List.mem_flatMap, List.mem_range]
    exact Or.inl ⟨s, hs, by simp⟩
  · intro i j hi hj hP hQ
    exact before_of_split not_minDistanceWork_of_groupId3d not_groupIdRender_of_prefix3d
      i j hi hj hP hQ

/-- Witness for C7 at dz = 1, comparing the min-distance finish barrier
(index 7 of the 2D trace) with the group-id draw (index 9). -/
theorem C7_minDistance_completes_before_groupId_witness :
    GpuEvent.render .minDistance 0 ∈ (calcPipeline2d true 1).1 ∧ (7 : ℕ) < 9 :=
  ⟨(C7_minDistance_completes_before_groupId 1).1.1 0 (by norm_num),
    (C7_minDistance_completes_before_groupId 1).1.2 7 9 (by decide) (by decide)
      (by right; decide) (by exact ⟨0, by decide⟩)⟩

/-- Claim C8 (confirmed): when the MIN/MAX blend-equation capability is
absent, both pipeline variants abort with the EXT_blend_minmax diagnostic,
return no result, and the event trace issued before the abort contains no
min-distance draw (the MinDistance pass never executes) and no group-id
draw. -/
theorem C8_missing_blendMinMax_is_fatal (dz : ℕ) :
    (calcPipeline2d false dz).2 = Except.error blendMinMaxError ∧
      ((calcPipeline2d false dz).1.any isMinDistanceRenderB = false ∧
        (calcPipeline2d false dz).1.any isGroupIdRenderB = false) ∧
      (calcPipeline3d false dz).2 = Except.error blendMinMaxError ∧
      ((calcPipeline3d false dz).1.any isMinDistanceRenderB = false ∧
        (calcPipeline3d false dz).1.any isGroupIdRenderB = false) := by
  have h2d : (calcPipeline2d false dz).1 =
      [GpuEvent.setup .density] ++ renderBatch2d .density true dz ++
        [GpuEvent.setup .minDistance] := by
    simp [calcPipeline2d]
  have h3d : (calcPipeline3d false dz).1 =
      [GpuEvent.setup .density] ++ renderBatch3d .density true dz ++
        [GpuEvent.setup .minDistance] := by
    simp [calcPipeline3d]
  refine ⟨rfl, ⟨?_, ?_⟩, rfl, ⟨?_, ?_⟩⟩
  · rw [h2d, List.any_eq_false]
    intro e he
    simp only [List.mem_append, List.mem_singleton] at he
    rcases he with (he | he) | he
    · subst he; simp [isMinDistanceRenderB]
    · rcases renderBatch2d_events he with h | ⟨i, h⟩ | h <;> subst h <;>
        simp [isMinDistanceRenderB]
    · subst he; simp [isMinDistanceRenderB]
  · rw [h2d, List.any_eq_false]
    intro e he
    simp only [List.mem_append, List.mem_singleton] at he
    rcases he with (he | he) | he
    · subst he; simp [isGroupIdRenderB]
    · rcases renderBatch2d_events he with h | ⟨i, h⟩ | h <;> subst h <;>
        simp [isGroupIdRenderB]
    · subst he; simp [isGroupIdRenderB]
  · rw [h3d, List.any_eq_false]
    intro e he
    simp only [List.mem_append, List.mem_singleton] at he
    rcases he with (he | he) | he
    · subst he; simp [isMinDistanceRenderB]
    · rcases renderBatch3d_events he with h | ⟨i, h⟩ | h <;> subst h <;>
        simp [isMinDistanceRenderB]
    · subst he; simp [isMinDistanceRenderB]
  · rw [h3d, List.any_eq_false]
    intro e he
    simp only [List.mem_append, List.mem_singleton] at he
    rcases he with (he | he) | he
    · subst he; simp [isGroupIdRenderB]
    · rcases renderBatch3d_events he with h | ⟨i, h⟩ | h <;> subst h <;>
        simp [isGroupIdRenderB]
    · subst he; simp [isGroupIdRenderB]

/-! ### Scan loop lemmas -/

lemma adjustScan_none_of_exceeds (center : Vec3) (upperSq : ℝ) :
    ∀ (l : List Vec3) (m : ℝ) (e : Vec3),
      (∃ p ∈ l, upperSq < v3squaredDistance p center) →
      adjustScan center upperSq l m e = none := by
  intro l
  induction l with
  | nil =>
    intro m e h
    obtain ⟨p, hp, _⟩ := h
    cases hp
  | cons a rest ih =>
    intro m e h
    obtain ⟨p, hp, hgt⟩ := h
    simp only [adjustScan]
    by_cases ha : upperSq < v3squaredDistance a center
    · rw [if_pos ha]
    · rw [if_neg ha]
      rcases List.mem_cons.1 hp with h1 | h1
      · subst h1
        exact absurd hgt ha
      · by_cases hm : m < v3squaredDistance a center
        · rw [if_pos hm]
          exact ih _ _ ⟨p, h1, hgt⟩
        · rw [if_neg hm]
          exact ih _ _ ⟨p, h1, hgt⟩

lemma adjustScan_complete (center : Vec3) (upperSq : ℝ) :
    ∀ (l : List Vec3) (m : ℝ) (e : Vec3),
      (∀ p ∈ l, ¬ upperSq < v3squaredDistance p center) →
      adjustScan center upperSq l m e =
        some (scanMaxDistSq center l m, scanExtremPoint center l m e) := by
  intro l
  induction l with
  | nil =>
    intro m e _
    rfl
  | cons a rest ih =>
    intro m e h
    simp only [adjustScan, scanMaxDistSq, scanExtremPoint]
    rw [if_neg (h a (List.mem_cons_self a rest))]
    by_cases hm : m < v3squaredDistance a center
    · rw [if_pos hm, if_pos hm, if_pos hm]
      exact ih _ _ (fun p hp => h p (List.mem_cons_of_mem a hp))
    · rw [if_neg hm, if_neg hm, if_neg hm]
      exact ih _ _ (fun p hp => h p (List.mem_cons_of_mem a hp))

/-! ### Claim C4 -/

/-- Claim C4 (confirmed): tryAdjustBoundary computes
`threshold = radius / 100 * 5`, and whenever some active point's squared
distance to the sphere center exceeds `(radius + threshold)^2` the function
returns no result — an ordinary `none` value signaling that a full refit is
required, not an exception. -/
theorem C4_tryAdjustBoundary_rejection (data : PositionData) (boundary : Boundary)
    (h : ∃ p ∈ activePoints data,
      (boundary.sphere.radius + boundary.sphere.radius / 100 * 5) ^ 2 <
        v3squaredDistance p boundary.sphere.center) :
    tryAdjustBoundary data boundary = none := by
  simp only [tryAdjustBoundary]
  rw [show (boundary.sphere.radius + boundary.sphere.radius / 100 * 5) *
      (boundary.sphere.radius + boundary.sphere.radius / 100 * 5) =
      (boundary.sphere.radius + boundary.sphere.radius / 100 * 5) ^ 2 from by ring]
  rw [adjustScan_none_of_exceeds _ _ _ 0 ⟨0, 0, 0⟩ h]

/-- Witness for C4: the point (2,0,0) has squared distance 4 to the unit
sphere center, beyond (1 + 0.05)^2, so the adjustment is rejected. -/
theorem C4_tryAdjustBoundary_rejection_witness :
    tryAdjustBoundary c4Data unitBoundary = none :=
  C4_tryAdjustBoundary_rejection c4Data unitBoundary
    ⟨⟨2, 0, 0⟩, by simp [c4Data, activePoints, positionAt],
      by norm_num [v3squaredDistance, unitBoundary]⟩

/-! ### Claim C6 -/

/-- Claim C6 (confirmed): when no active point's squared center distance
exceeds `(radius + threshold)^2` and the scan's maximum distance is within
EPSILON of the old radius, tryAdjustBoundary returns the old boundary value
itself, unchanged. -/
theorem C6_tryAdjustBoundary_unchanged (data : PositionData) (boundary : Boundary)
    (h1 : ∀ p ∈ activePoints data,
      v3squaredDistance p boundary.sphere.center ≤
        (boundary.sphere.radius + boundary.sphere.radius / 100 * 5) ^ 2)
    (h2 : equalEps (adjustedRadiusOf data boundary) boundary.sphere.radius EPSILON) :
    tryAdjustBoundary data boundary = some boundary := by
  simp only [tryAdjustBoundary]
  rw [show (boundary.sphere.radius + boundary.sphere.radius / 100 * 5) *
      (boundary.sphere.radius + boundary.sphere.radius / 100 * 5) =
      (boundary.sphere.radius + boundary.sphere.radius / 100 * 5) ^ 2 from by ring]
  rw [adjustScan_complete _ _ _ 0 ⟨0, 0, 0⟩ (fun p hp => not_lt.2 (h1 p hp))]
  exact if_pos h2

/-- Witness for C6: the adjusted radius is sqrt 1 = 1 = old radius, so the
old boundary is returned unchanged. -/
theorem C6_tryAdjustBoundary_unchanged_witness :
    tryAdjustBoundary c6Data unitBoundary = some unitBoundary := by
  have hpts : activePoints c6Data = [⟨1, 0, 0⟩] := by
    simp [c6Data, activePoints, positionAt]
  have hmax : scanMaxDistSq unitBoundary.sphere.center (activePoints c6Data) 0 = 1 := by
    rw [hpts]
    norm_num [scanMaxDistSq, v3squaredDistance, unitBoundary]
  refine C6_tryAdjustBoundary_unchanged c6Data unitBoundary ?_ ?_
  · intro p hp
    rw [hpts] at hp
    simp only [List.mem_singleton] at hp
    subst hp
    norm_num [v3squaredDistance, unitBoundary]
  · show equalEps (Real.sqrt (scanMaxDistSq _ _ _)) _ _
    rw [hmax, Real.sqrt_one]
    norm_num [equalEps, EPSILON, unitBoundary]

/-! ### Claim C5 -/

/-- Claim C5 (confirmed): when the scan completes, the adjusted radius
differs from the old radius by more than EPSILON but lies within the
threshold band, and the sphere carries tracked extrema, then the adjustment
is accepted exactly when the scan's extremal point lies within 2×threshold
of one of the tracked extrema; on acceptance the result is the sphere
expanded by exactly (adjusted radius - old radius), whose radius is the
adjusted radius, together with the box recomputed from that expanded
sphere; otherwise no result. -/
theorem C5_tryAdjustBoundary_threshold_band (data : PositionData) (boundary : Boundary)
    (extrema : List Vec3) (hex : boundary.sphere.extrema = some extrema)
    (h1 : ∀ p ∈ activePoints data,
      v3squaredDistance p boundary.sphere.center ≤
        (boundary.sphere.radius + boundary.sphere.radius / 100 * 5) ^ 2)
    (h2 : ¬ equalEps (adjustedRadiusOf data boundary) boundary.sphere.radius EPSILON)
    (h3 : equalEps (adjustedRadiusOf data boundary) boundary.sphere.radius
      (boundary.sphere.radius / 100 * 5)) :
    ((∀ e ∈ extrema,
        ¬ v3distance e (extremPointOf data boundary) <
          boundary.sphere.radius / 100 * 5 * 2) →
      tryAdjustBoundary data boundary = none) ∧
    ((∃ e ∈ extrema,
        v3distance e (extremPointOf data boundary) <
          boundary.sphere.radius / 100 * 5 * 2) →
      tryAdjustBoundary data boundary =
        some { box := Box3D.fromSphere3D (Sphere3D.expand boundary.sphere
                (adjustedRadiusOf data boundary - boundary.sphere.radius))
               sphere := Sphere3D.expand boundary.sphere
                (adjustedRadiusOf data boundary - boundary.sphere.radius) } ∧
        (Sphere3D.expand boundary.sphere
          (adjustedRadiusOf data boundary - boundary.sphere.radius)).radius =
          adjustedRadiusOf data boundary) := by
  have hprelude : ∀ result : Option Boundary,
      (@ite (Option Boundary)
        (∃ e ∈ extrema,
          v3distance e (scanExtremPoint boundary.sphere.center (activePoints data) 0
            ⟨0, 0, 0⟩) < boundary.sphere.radius / 100 * 5 * 2)
        (Classical.propDecidable _)
        (some ⟨Box3D.fromSphere3D (Sphere3D.expand boundary.sphere
            (Real.sqrt (scanMaxDistSq boundary.sphere.center (activePoints data) 0) -
              boundary.sphere.radius)),
          Sphere3D.expand boundary.sphere
            (Real.sqrt (scanMaxDistSq boundary.sphere.center (activePoints data) 0) -
              boundary.sphere.radius)⟩)
        none) = result →
      tryAdjustBoundary data boundary = result := by
    intro result hresult
    simp only [tryAdjustBoundary]
    rw [show (boundary.sphere.radius + boundary.sphere.radius / 100 * 5) *
        (boundary.sphere.radius + boundary.sphere.radius / 100 * 5) =
        (boundary.sphere.radius + boundary.sphere.radius / 100 * 5) ^ 2 from by ring]
    rw [adjustScan_complete _ _ _ 0 ⟨0, 0, 0⟩ (fun p hp => not_lt.2 (h1 p hp))]
    have h2a : ¬ equalEps
        (Real.sqrt (scanMaxDistSq boundary.sphere.center (activePoints data) 0))
        boundary.sphere.radius EPSILON := h2
    have h3a : equalEps
        (Real.sqrt (scanMaxDistSq boundary.sphere.center (activePoints data) 0))
        boundary.sphere.radius (boundary.sphere.radius / 100 * 5) := h3
    dsimp only
    rw [if_neg h2a, if_pos h3a, hex]
    exact hresult
  constructor
  · intro hno
    refine hprelude none (if_neg ?_)
    intro hcontra
    obtain ⟨e, he, hlt⟩ := hcontra
    exact hno e he hlt
  · intro hyes
    have hyes2 : ∃ e ∈ extrema,
        v3distance e (scanExtremPoint boundary.sphere.center (activePoints data) 0
          ⟨0, 0, 0⟩) < boundary.sphere.radius / 100 * 5 * 2 := hyes
    refine ⟨hprelude _ (if_pos hyes2), ?_⟩
    show boundary.sphere.radius + _ = _
    ring

/-- Witness for C5: the new extremal point (1.02, 0, 0) lies within
2×threshold = 0.1 of the tracked extremum (1,0,0), so the adjustment is
accepted and the sphere radius becomes exactly 1.02. -/
theorem C5_tryAdjustBoundary_threshold_band_witness :
    tryAdjustBoundary c5Data c5Boundary =
      some { box := Box3D.fromSphere3D (Sphere3D.expand c5Boundary.sphere
              (adjustedRadiusOf c5Data c5Boundary - c5Boundary.sphere.radius))
             sphere := Sphere3D.expand c5Boundary.sphere
              (adjustedRadiusOf c5Data c5Boundary - c5Boundary.sphere.radius) } ∧
      (Sphere3D.expand c5Boundary.sphere
        (adjustedRadiusOf c5Data c5Boundary - c5Boundary.sphere.radius)).radius =
        adjustedRadiusOf c5Data c5Boundary := by
  have hpts : activePoints c5Data = [⟨51 / 50, 0, 0⟩] := by
    simp [c5Data, activePoints, positionAt]
  have hmax : scanMaxDistSq c5Boundary.sphere.center (activePoints c5Data) 0 =
      (51 / 50 : ℝ) ^ 2 := by
    rw [hpts]
    norm_num [scanMaxDistSq, v3squaredDistance, c5Boundary]
  have har : adjustedRadiusOf c5Data c5Boundary = 51 / 50 := by
    show Real.sqrt _ = _
    rw [hmax, Real.sqrt_sq (by norm_num : (0 : ℝ) ≤ 51 / 50)]
  have hext : extremPointOf c5Data c5Boundary = ⟨51 / 50, 0, 0⟩ := by
    show scanExtremPoint _ _ _ _ = _
    rw [hpts]
    norm_num [scanExtremPoint, v3squaredDistance, c5Boundary]
  refine (C5_tryAdjustBoundary_threshold_band c5Data c5Boundary [⟨1, 0, 0⟩] rfl ?_ ?_ ?_).2 ?_
  · intro p hp
    rw [hpts] at hp
    simp only [List.mem_singleton] at hp
    subst hp
    norm_num [v3squaredDistance, c5Boundary]
  · rw [har]
    simp only [equalEps, not_le, c5Boundary]
    rw [show (51 : ℝ) / 50 - 1 = 1 / 50 from by norm_num]
    calc EPSILON < 1 / 50 := by norm_num [EPSILON]
      _ ≤ |1 / 50| := le_abs_self _
  · rw [har]
    simp only [equalEps, c5Boundary]
    rw [show (51 : ℝ) / 50 - 1 = 1 / 50 from by norm_num]
    rw [abs_of_pos (by norm_num : (0 : ℝ) < 1 / 50)]
    norm_num
  · refine ⟨⟨1, 0, 0⟩, by simp, ?_⟩
    rw [hext]
    show Real.sqrt _ < _
    have : v3squaredDistance ⟨1, 0, 0⟩ ⟨51 / 50, 0, 0⟩ = ((1 : ℝ) / 50) ^ 2 := by
      norm_num [v3squaredDistance]
    rw [this, Real.sqrt_sq (by norm_num : (0 : ℝ) ≤ 1 / 50)]
    norm_num [c5Boundary]

/-! ### Claim C10 -/

/-- Claim C10 (confirmed): tryAdjustBoundary reads only the coordinate
arrays and the index list of its PositionData; two inputs agreeing on x, y,
z and indices but with arbitrary radius (and id) arrays yield identical
results, so an accepted adjustment never accounts for per-point radii. -/
theorem C10_tryAdjustBoundary_ignores_radius (d1 d2 : PositionData) (boundary : Boundary)
    (hx : d1.x = d2.x) (hy : d1.y = d2.y) (hz : d1.z = d2.z)
    (hind : d1.indices = d2.indices) :
    tryAdjustBoundary d1 boundary = tryAdjustBoundary d2 boundary := by
  obtain ⟨x1, y1, z1, r1, i1, l1⟩ := d1
  obtain ⟨x2, y2, z2, r2, i2, l2⟩ := d2
  cases hx
  cases hy
  cases hz
  cases hind
  rfl

/-- Witness for C10: changing the radius (and id) arrays does not change
the adjustment result. -/
theorem C10_tryAdjustBoundary_ignores_radius_witness :
    tryAdjustBoundary c6Data unitBoundary = tryAdjustBoundary c10Data unitBoundary :=
  C10_tryAdjustBoundary_ignores_radius c6Data c10Data unitBoundary rfl rfl rfl rfl

/-! ### Claim C1 -/

lemma le_foldl_max_dist (center : Vec3) (pts : List (Vec3 × ℝ)) :
    ∀ init : ℝ, init ≤ pts.foldl (fun m q => max m (v3distance q.1 center + q.2)) init := by
  induction pts with
  | nil => intro init; exact le_refl _
  | cons a rest ih =>
    intro init
    exact le_trans (le_max_left _ _) (ih _)

lemma mem_le_foldl_max_dist (center : Vec3) :
    ∀ (pts : List (Vec3 × ℝ)) (q : Vec3 × ℝ), q ∈ pts →
      ∀ init : ℝ,
        v3distance q.1 center + q.2 ≤
          pts.foldl (fun m q => max m (v3distance q.1 center + q.2)) init := by
  intro pts
  induction pts with
  | nil => intro q hq; cases hq
  | cons a rest ih =>
    intro q hq init
    rcases List.mem_cons.1 hq with h | h
    · subst h
      exact le_trans (le_max_right _ _) (le_foldl_max_dist center rest _)
    · exact ih q h _

lemma pointInBox_include (b : Box3D) (p q : Vec3) (r s : ℝ)
    (h : pointInBox b q s) : pointInBox (includePositionRadius b p r) q s := by
  obtain ⟨h1, h2, h3, h4, h5, h6⟩ := h
  exact ⟨le_trans (min_le_left _ _) h1, le_trans (min_le_left _ _) h2,
    le_trans (min_le_left _ _) h3, le_trans h4 (le_max_left _ _),
    le_trans h5 (le_max_left _ _), le_trans h6 (le_max_left _ _)⟩

lemma pointInBox_include_self (b : Box3D) (p : Vec3) (r : ℝ) :
    pointInBox (includePositionRadius b p r) p r :=
  ⟨min_le_right _ _, min_le_right _ _, min_le_right _ _,
    le_max_right _ _, le_max_right _ _, le_max_right _ _⟩

lemma pointInBox_foldl (pts : List (Vec3 × ℝ)) :
    ∀ (b : Box3D) (q : Vec3 × ℝ), pointInBox b q.1 q.2 →
      pointInBox (pts.foldl (fun b q => includePositionRadius b q.1 q.2) b) q.1 q.2 := by
  induction pts with
  | nil => intro b q h; exact h
  | cons a rest ih =>
    intro b q h
    exact ih _ _ (pointInBox_include _ _ _ _ _ h)

lemma pointInBox_foldl_mem (pts : List (Vec3 × ℝ)) :
    ∀ (b : Box3D) (q : Vec3 × ℝ), q ∈ pts →
      pointInBox (pts.foldl (fun b q => includePositionRadius b q.1 q.2) b) q.1 q.2 := by
  induction pts with
  | nil => intro b q h; cases h
  | cons a rest ih =>
    intro b q h
    rcases List.mem_cons.1 h with h1 | h1
    · subst h1
      exact pointInBox_foldl rest _ _ (pointInBox_include_self _ _ _)
    · exact ih _ _ h1

lemma candidateBox_contains (pts : List (Vec3 × ℝ)) (q : Vec3 × ℝ) (hq : q ∈ pts) :
    pointInBox (candidateBox pts) q.1 q.2 := by
  cases pts with
  | nil => cases hq
  | cons a rest =>
    obtain ⟨p0, r0⟩ := a
    simp only [candidateBox]
    rcases List.mem_cons.1 hq with h | h
    · subst h
      exact pointInBox_foldl rest _ _
        ⟨le_refl _, le_refl _, le_refl _, le_refl _, le_refl _, le_refl _⟩
    · exact pointInBox_foldl_mem rest _ _ h

/-- Claim C1 (confirmed, over the spec-modelled BoundaryHelper): every
active point, offset by its per-point radius, lies inside the returned
bounding sphere and inside the returned bounding box (exactly, hence within
any numerical tolerance). -/
theorem C1_getBoundary_sound (data : PositionData) (i : ℕ) (hi : i ∈ data.indices) :
    pointInSphere (getBoundary data).sphere (positionAt data i) (radiusAt data i) ∧
      pointInBox (getBoundary data).box (positionAt data i) (radiusAt data i) := by
  have hmem : (positionAt data i, radiusAt data i) ∈ activePointRadii data := by
    simp only [activePointRadii, List.mem_map]
    exact ⟨i, hi, rfl⟩
  exact ⟨mem_le_foldl_max_dist _ _ _ hmem 0, candidateBox_contains _ _ hmem⟩

/-- Witness for C1 at the single-point input. -/
theorem C1_getBoundary_sound_witness :
    pointInSphere (getBoundary c1Data).sphere (positionAt c1Data 0) (radiusAt c1Data 0) ∧
      pointInBox (getBoundary c1Data).box (positionAt c1Data 0) (radiusAt c1Data 0) :=
  C1_getBoundary_sound c1Data 0 (by simp [c1Data])

/-- Claim C9 (code_bug): the uploaded group of the t-th active point should
be id[j] with j the t-th active index (the index used for that point's
coordinates and radius), but gpu.ts line 277 reads `id[i]` at the iteration
position: at the failing input the single active point has active index 2
with id[2] = 7, yet the prepared groups array is [9] = [id[0]]. -/
theorem C9_group_id_indexing_divergence :
    (prepareGaussianDensityData c9Data (fun _ => 0) 0).groups = [(9 : ℝ)] ∧
      c9Data.indices.map c9id = [(7 : ℝ)] := by
  constructor
  · norm_num [prepareGaussianDensityData, c9Data, c9id, List.range_succ]
  · norm_num [c9Data, c9id]

end MolStar
